import Mathlib

/-!
Verification of the interactive Picker subsystem: a shallow embedding of the Picker subsystem of a Neovim configuration plugin
written in Rust (`src/picker/keybindings.rs`, `src/picker/picker.rs`,
`src/picker/popup_window.rs`, `src/project_command.rs`).

Conventions of the embedding:

* A Neovim buffer's content is a `List String` of its lines
  (0-based indices for the host API, 1-based rows for window cursors,
  exactly as in the Neovim API the source calls into).
* `get_lines(range, true)` (strict indexing) is modelled by
  `get_lines_strict`: out-of-bounds indices yield `none` (the Rust side
  receives an `Err` and every call site ignores the failure).
* `f32` sizing arithmetic is modelled over `ℚ`.  Every value the source
  computes here is either an integer below 2^24 or such an integer times a
  ratio; for the concrete ratios exercised by the claims (`0.5` and small
  integers) the `f32` computation is exact, so the `ℚ` model agrees with
  the source bit-for-bit.
* Fallible host calls (`create_buf`, `open_win`) are driven by a
  `HostOracle` recording the outcome of each successive call, so that
  `create_editable_picker_with_options` can be analysed on every
  success/failure pattern.
-/

namespace Picker

/-- Keymap mode (`nvim_oxi::api::types::Mode`), restricted to the two modes
the picker uses. -/
inductive Mode where
  | insert
  | normal
deriving DecidableEq, Repr

/-- `nvim_oxi::api::types::WindowBorder`, restricted to the constructors the
picker uses: `None`, `Rounded` and the per-edge-glyph custom border
(`Anal(..)` in the source; the glyphs themselves never influence control
flow, only the comparison against `None` does, so the payload is dropped). -/
inductive WindowBorder where
  | none
  | rounded
  | custom
deriving DecidableEq, Repr

/-- `ScreenSize` from `popup_window.rs` (character cells). -/
structure ScreenSize where
  width : Nat
  height : Nat
deriving DecidableEq, Repr

/-- `PopupWindowOptions` from `popup_window.rs`.  Ratios are `Option ℚ`
(source: `Option<f32>`); `buffer` is omitted because the editable-picker
claims never read it. -/
structure PopupWindowOptions where
  border : WindowBorder
  window_width_ratio : Option ℚ
  window_height_ratio : Option ℚ
  auto_width : Bool
  auto_height : Bool
deriving DecidableEq

/-- `EditablePickerOptions` from `picker.rs`. -/
structure EditablePickerOptions where
  title : String
  window_opts : PopupWindowOptions
  list : List String
deriving DecidableEq

/-- `EditablePickerOpenResult` from `picker.rs`: the three window handles
returned to the caller (handles stay `-1` when `open_win` failed). -/
structure EditablePickerOpenResult where
  title_window_handle : Int
  input_window_handle : Int
  list_window_handle : Int
deriving DecidableEq, Repr

/-- `nvim_buf_get_lines(start, stop, strict_indexing = true)` on a buffer
whose lines are `lines`: 0-based, end-exclusive; any out-of-range index is
an error (`none`). -/
def get_lines_strict (lines : List String) (start stop : Nat) : Option (List String) :=
  if start ≤ stop ∧ stop ≤ lines.length then some ((lines.drop start).take (stop - start))
  else none

/-- The mutable state touched by the editable picker's keybinding handlers:
the three windows' open flags, the input buffer's lines, the list buffer's
lines, the list window's cursor (1-based row, 0-based col) and the log of
callback invocations (in order). -/
structure SessionState where
  title_open : Bool
  input_open : Bool
  list_open : Bool
  input_lines : List String
  list_lines : List String
  cursor_row : Nat
  cursor_col : Nat
  callback_log : List String
deriving DecidableEq, Repr

/-- `ctrl_jk_callback` from `picker/keybindings.rs` (the `<c-j>`/`<c-k>`
handler).  Faithful to the source order: read the cursor, early-return on
`<c-k>` at row 1, read one line from the list buffer with strict indexing
(range `row..row+1` for `<c-j>`, `row-2..row-1` for `<c-k>` at `row ≥ 2`)
and, when the read succeeds, replace the whole input buffer with that line;
then advance/retreat the row within `[1, line_count]` and set the cursor. -/
def ctrl_jk_callback (is_ctrl_j : Bool) (s : SessionState) : SessionState :=
  let row := s.cursor_row
  let col := s.cursor_col
  if is_ctrl_j = false ∧ row = 1 then s
  else
    let range : Nat × Nat :=
      if is_ctrl_j = false ∧ 2 ≤ row then (row - 2, row - 1) else (row, row + 1)
    let s1 :=
      match get_lines_strict s.list_lines range.1 range.2 with
      | some (first_line :: _) => { s with input_lines := [first_line] }
      | _ => s
    let line_count := s.list_lines.length
    let new_row :=
      if is_ctrl_j = true ∧ row < line_count then row + 1
      else if is_ctrl_j = false ∧ 1 < row then row - 1
      else row
    { s1 with cursor_row := new_row, cursor_col := col }

/-- The `selected_text` computed by `enter_callback`: the input buffer's
first line via `get_lines(0..1, true)`, or `""` when the read fails. -/
def enter_selected_text (input_lines : List String) : String :=
  match get_lines_strict input_lines 0 1 with
  | some (first_line :: _) => first_line
  | _ => ""

/-- `enter_callback` from `picker/keybindings.rs` (the `<CR>` handler):
read the input's first line as `selected_text`, leave insert mode, close
all three windows, then invoke the selection callback exactly once with
`selected_text` (modelled by appending to `callback_log`). -/
def enter_callback (s : SessionState) : SessionState :=
  let selected_text := enter_selected_text s.input_lines
  { s with
    title_open := false
    input_open := false
    list_open := false
    callback_log := s.callback_log ++ [selected_text] }

/-- `ctrl_e_to_close_the_picker` from `picker/keybindings.rs` (the `<c-e>`
handler): leave insert mode and close all three windows; the selection
callback is never invoked. -/
def ctrl_e_to_close_the_picker (s : SessionState) : SessionState :=
  { s with title_open := false, input_open := false, list_open := false }

/-- The keymaps `set_input_buffer_keybindings` installs on the input buffer
(mode × lhs), in source order; if any of the three window handles is `-1`
the function returns early and installs nothing. -/
def set_input_buffer_keybindings
    (title_window_handle input_window_handle list_window_handle : Int) :
    List (Mode × String) :=
  if title_window_handle = -1 ∨ input_window_handle = -1 ∨ list_window_handle = -1 then []
  else
    [(Mode.insert, "<CR>"), (Mode.normal, "<CR>"),
     (Mode.insert, "<c-j>"), (Mode.normal, "<c-j>"),
     (Mode.insert, "<c-k>"), (Mode.normal, "<c-k>"),
     (Mode.normal, "<c-e>"), (Mode.insert, "<c-e>")]

/-- `ProjectCommandState` from `project_command.rs` (per-project entry of
`cmd_map`), plus a log of the commands handed to `execute_command`. -/
structure ProjectCommandState where
  cmd_list : List String
  default_cmd_index : Option Nat
  executed : List String
deriving DecidableEq, Repr

/-- `picker_selected_callback` from `project_command.rs` (the selection
callback the project-command feature passes to the editable picker), after
the `cmd_map` entry for the project has been found.  Faithful to the
source order: when `selected_cmd` is empty, fall back to the default (or
first) entry of `cmd_list`, returning unchanged when `cmd_list` is empty;
append `cmd` to `cmd_list` when absent and then drop empty placeholder
lines; update `default_cmd_index` to the first index holding `cmd`; run
the command.  (Rust indexes `cmd_list[cmd_index]` directly, which panics
out of range; the model uses `getD _ ""` — the module maintains the index
in range, and every claim below either assumes the index in range or never
reaches this branch.) -/
def picker_selected_callback (state : ProjectCommandState) (selected_cmd : String) :
    ProjectCommandState :=
  if selected_cmd.isEmpty = true ∧ state.cmd_list.length = 0 then state
  else
    let cmd :=
      if selected_cmd.isEmpty = true then
        match state.default_cmd_index with
        | some cmd_index => state.cmd_list.getD cmd_index ""
        | none => state.cmd_list.getD 0 ""
      else selected_cmd
    let new_list :=
      if cmd ∈ state.cmd_list then state.cmd_list
      else (state.cmd_list ++ [cmd]).filter (fun line => !line.isEmpty)
    let new_index :=
      match new_list.findIdx? (· = cmd) with
      | some i => some i
      | none => state.default_cmd_index
    { cmd_list := new_list, default_cmd_index := new_index,
      executed := state.executed ++ [cmd] }

/-! ## Layout / sizing (`picker.rs` lines 246–302, `popup_window.rs` lines 47–127) -/

/-- The ratio-based base width: `((screen.width as f32) * ratio).floor()`
with the `0.5` default when the ratio is unset (identical in
`create_popup_window` and `create_editable_picker_with_options`). -/
def base_width (screen : ScreenSize) (window_width_ratio : Option ℚ) : ℚ :=
  ⌊(screen.width : ℚ) * (window_width_ratio.getD (1 / 2))⌋

/-- The ratio-based base height, with the `0.5` default. -/
def base_height (screen : ScreenSize) (window_height_ratio : Option ℚ) : ℚ :=
  ⌊(screen.height : ℚ) * (window_height_ratio.getD (1 / 2))⌋

/-- The auto-width loop of `create_editable_picker_with_options`
(`picker.rs` lines 260–277): `max_cols` starts at `title.len()`; for each
list line the running max is updated and — *inside the loop body* — `width`
is overwritten with `max_cols + 4` whenever the running max is positive.
`4 = POPUP_WINDOW_AUTO_WIDTH_PADDING_EACH_SIDE * 2`.  The accumulator is
`(max_cols, width)`. -/
def editable_auto_width_step (acc : Nat × ℚ) (line : String) : Nat × ℚ :=
  let max_cols := if line.length > acc.1 then line.length else acc.1
  (max_cols, if max_cols > 0 then ((max_cols : ℚ) + 4) else acc.2)

/-- Width computed by `create_editable_picker_with_options`: the ratio base,
overwritten by the auto-width loop only when `auto_width` is set and
`window_width_ratio` is unset. -/
def editable_width (screen : ScreenSize) (opts : EditablePickerOptions) : ℚ :=
  let w0 := base_width screen opts.window_opts.window_width_ratio
  if opts.window_opts.auto_width = true ∧ opts.window_opts.window_width_ratio = none then
    (opts.list.foldl editable_auto_width_step (opts.title.length, w0)).2
  else w0

/-- Height computed by `create_editable_picker_with_options`: the ratio base,
overwritten by `list.len() + 2` (1 title line, 1 input line) when
`auto_height` is set and `window_height_ratio` is unset. -/
def editable_height (screen : ScreenSize) (opts : EditablePickerOptions) : ℚ :=
  let h0 := base_height screen opts.window_opts.window_height_ratio
  if opts.window_opts.auto_height = true ∧ opts.window_opts.window_height_ratio = none then
    (opts.list.length : ℚ) + 2
  else h0

/-- `cal_width` of the editable picker (`picker.rs` lines 291–295): the
effective width used for centering; `+2` unless the border is `None`. -/
def editable_cal_width (border : WindowBorder) (width : ℚ) : ℚ :=
  if border = WindowBorder.none then width else width + 2

/-- `cal_height` of the editable picker (`picker.rs` lines 296–300): the
effective height used for centering; `+4` ("4 borders!!!") unless the
border is `None`. -/
def editable_cal_height (border : WindowBorder) (height : ℚ) : ℚ :=
  if border = WindowBorder.none then height else height + 4

/-- Width computed by `create_popup_window` (`popup_window.rs` lines 58–93)
for the single-surface picker, whose auto-width loop reads the backing
buffer's lines and — unlike the editable variant — applies the
`max_cols > 0` overwrite *after* the loop. -/
def popup_window_width (screen : ScreenSize) (o : PopupWindowOptions)
    (buffer_lines : List String) : ℚ :=
  let w0 := base_width screen o.window_width_ratio
  if o.auto_width = true ∧ o.window_width_ratio = none then
    let max_cols := buffer_lines.foldl
      (fun m line => if line.length > m then line.length else m) 0
    if max_cols > 0 then (max_cols : ℚ) + 4 else w0
  else w0

/-- Height computed by `create_popup_window` (`popup_window.rs` lines
59, 98–118): the buffer's line count when auto-height applies and the
buffer is non-empty, else the ratio base. -/
def popup_window_height (screen : ScreenSize) (o : PopupWindowOptions)
    (buffer_lines : List String) : ℚ :=
  let h0 := base_height screen o.window_height_ratio
  if o.auto_height = true ∧ o.window_height_ratio = none then
    if buffer_lines.length > 0 then (buffer_lines.length : ℚ) else h0
  else h0

/-- `cal_width` of `create_popup_window` (`popup_window.rs` line 124):
`+2` unless the border is `None`. -/
def popup_cal_width (border : WindowBorder) (width : ℚ) : ℚ :=
  if border = WindowBorder.none then width else width + 2

/-- `cal_height` of `create_popup_window` (`popup_window.rs` line 125):
`+2` unless the border is `None`. -/
def popup_cal_height (border : WindowBorder) (height : ℚ) : ℚ :=
  if border = WindowBorder.none then height else height + 2

/-! ## `create_editable_picker_with_options` under a host oracle -/

/-- Outcomes of the host allocation calls `create_editable_picker_with_options`
makes, in call order: `buf_ok.getD i false` is the outcome of the `i`-th
`create_buf` (title, input, list), `win_ok.getD i false` of the `i`-th
`open_win`, and `win_handles.getD i (-1)` the handle a successful `i`-th
`open_win` returns. -/
structure HostOracle where
  buf_ok : List Bool
  win_ok : List Bool
  win_handles : List Int
deriving DecidableEq, Repr

/-- Everything observable about one run of
`create_editable_picker_with_options`: how many buffers were successfully
created, how many of the created surfaces the function destroyed before
returning, the returned value (`none` models `Err(NvimError)` propagated
by `?`), and the keymaps installed on the input buffer. -/
structure OpenTrace where
  created_bufs : Nat
  destroyed_surfaces : Nat
  result : Option EditablePickerOpenResult
  bindings : List (Mode × String)
  width : ℚ
  height : ℚ
deriving DecidableEq

/-- `create_editable_picker_with_options` from `picker.rs` (lines 206–464),
control-flow faithful: the three `create_popup_buffer()?` calls propagate
failure immediately (and the source never destroys the buffers already
created — there is no rollback code on any path); each `open_win` failure
is swallowed by `if let Ok(..)`, leaving its handle at `-1`; the ratio
options are never validated; `set_input_buffer_keybindings` runs on the
resulting handles; the function then returns `Ok` with whatever handles it
has. -/
def create_editable_picker_with_options (host : HostOracle) (screen : ScreenSize)
    (opts : EditablePickerOptions) : OpenTrace :=
  if host.buf_ok.getD 0 false = false then
    { created_bufs := 0, destroyed_surfaces := 0, result := none, bindings := []
      width := 0, height := 0 }
  else if host.buf_ok.getD 1 false = false then
    { created_bufs := 1, destroyed_surfaces := 0, result := none, bindings := []
      width := 0, height := 0 }
  else if host.buf_ok.getD 2 false = false then
    { created_bufs := 2, destroyed_surfaces := 0, result := none, bindings := []
      width := 0, height := 0 }
  else
    let title_window_handle :=
      if host.win_ok.getD 0 false = true then host.win_handles.getD 0 (-1) else -1
    let input_window_handle :=
      if host.win_ok.getD 1 false = true then host.win_handles.getD 1 (-1) else -1
    let list_window_handle :=
      if host.win_ok.getD 2 false = true then host.win_handles.getD 2 (-1) else -1
    { created_bufs := 3
      destroyed_surfaces := 0
      result := some
        { title_window_handle := title_window_handle
          input_window_handle := input_window_handle
          list_window_handle := list_window_handle }
      bindings := set_input_buffer_keybindings
        title_window_handle input_window_handle list_window_handle
      width := editable_width screen opts
      height := editable_height screen opts }

/-! ## Helper lemmas -/

/-- A strict one-line read at an in-range index yields exactly that line. -/
lemma get_lines_strict_single (l : List String) (i : ℕ) (h : i < l.length) :
    get_lines_strict l i (i + 1) = some [l.getD i ""] := by
  unfold get_lines_strict
  rw [if_pos ⟨Nat.le_succ i, h⟩]
  have hs : i + 1 - i = 1 := by omega
  rw [hs, List.drop_eq_getElem_cons h, List.take_succ_cons, List.take_zero,
    List.getD_eq_getElem l "" h]

/-- A strict one-line read whose end index is out of range fails. -/
lemma get_lines_strict_oob (l : List String) (i : ℕ) (h : l.length < i + 1) :
    get_lines_strict l i (i + 1) = none := by
  unfold get_lines_strict
  rw [if_neg]
  intro hc
  omega

/-- C7. For every item list and current cursor row `r`: `<c-j>`
(cursor-down) with `r < item_count` moves the list cursor to row `r + 1`
and copies that row's item (1-based row `r + 1`, i.e. 0-based index `r`)
into the Input surface, replacing its whole content; with
`r = item_count` it leaves the entire session state — cursor row and
Input content included — unchanged (no wrap). -/
theorem c7_cursor_down_advances_and_copies (s : SessionState) :
    (s.cursor_row < s.list_lines.length →
      ctrl_jk_callback true s =
        { s with
          cursor_row := s.cursor_row + 1
          input_lines := [s.list_lines.getD s.cursor_row ""] }) ∧
    (s.cursor_row = s.list_lines.length → ctrl_jk_callback true s = s) := by
  constructor
  · intro h
    simp only [ctrl_jk_callback, Bool.true_eq_false, false_and, if_false,
      get_lines_strict_single s.list_lines s.cursor_row h, true_and, if_pos h]
  · intro h
    simp only [ctrl_jk_callback, Bool.true_eq_false, false_and, if_false,
      get_lines_strict_oob s.list_lines s.cursor_row (by omega), true_and,
      if_neg (by omega : ¬s.cursor_row < s.list_lines.length)]

/-- Witness for C7 at the spec's own end-to-end scenario
(`items = ["a.sh", "b.sh"]`): cursor-down from row 1 lands on row 2 with
`"b.sh"` in the Input surface, and cursor-down at the boundary row 2 is a
no-op. -/
theorem c7_cursor_down_advances_and_copies_witness :
    (ctrl_jk_callback true
        ⟨true, true, true, [""], ["a.sh", "b.sh"], 1, 0, []⟩ =
      ⟨true, true, true, ["b.sh"], ["a.sh", "b.sh"], 2, 0, []⟩) ∧
    (ctrl_jk_callback true
        ⟨true, true, true, ["b.sh"], ["a.sh", "b.sh"], 2, 0, []⟩ =
      ⟨true, true, true, ["b.sh"], ["a.sh", "b.sh"], 2, 0, []⟩) := by
  constructor
  · exact (c7_cursor_down_advances_and_copies
      ⟨true, true, true, [""], ["a.sh", "b.sh"], 1, 0, []⟩).1 (by decide)
  · exact (c7_cursor_down_advances_and_copies
      ⟨true, true, true, ["b.sh"], ["a.sh", "b.sh"], 2, 0, []⟩).2 (by decide)

/-- C8 counterexample. The claim says the `<c-k>` (cursor-up) handler
copies "the item one position *behind* the row it moves to".  Concretely,
with list `["a", "b", "c"]` and cursor row 3, cursor-up moves to row 2; the
item one position behind row 2 is row 1's `"a"` (0-based index 0), but the
handler reads the 0-based range `row-2..row-1 = 1..2` and therefore puts
the destination row's own item `"b"` into the Input surface — there is no
look-back asymmetry. -/
theorem c8_counterexample :
    (ctrl_jk_callback false ⟨true, true, true, [""], ["a", "b", "c"], 3, 0, []⟩).cursor_row
        = 2 ∧
    (ctrl_jk_callback false ⟨true, true, true, [""], ["a", "b", "c"], 3, 0, []⟩).input_lines
        = ["b"] ∧
    ¬ (ctrl_jk_callback false ⟨true, true, true, [""], ["a", "b", "c"], 3, 0, []⟩).input_lines
        = [(["a", "b", "c"] : List String).getD 0 ""] := by
  decide

/-- C8 amended. Cursor-up at `cursor_row = 1` is a complete no-op; at
`2 ≤ cursor_row ≤ item_count` it moves the cursor up by one row and copies
the *destination* row's own item (1-based row `r - 1`, 0-based index
`r - 2`) into the Input surface — symmetric with cursor-down, which also
copies its destination row's item. -/
theorem c8_cursor_up_copies_destination (s : SessionState) :
    (s.cursor_row = 1 → ctrl_jk_callback false s = s) ∧
    (2 ≤ s.cursor_row → s.cursor_row ≤ s.list_lines.length →
      ctrl_jk_callback false s =
        { s with
          cursor_row := s.cursor_row - 1
          input_lines := [s.list_lines.getD (s.cursor_row - 2) ""] }) := by
  constructor
  · intro h1
    simp [ctrl_jk_callback, h1]
  · intro h2 h3
    have hc1 : ¬s.cursor_row = 1 := by omega
    have hc3 : 1 < s.cursor_row := by omega
    have hr : s.cursor_row - 1 = (s.cursor_row - 2) + 1 := by omega
    have hlt : s.cursor_row - 2 < s.list_lines.length := by omega
    simp [ctrl_jk_callback, hc1, h2, hc3, hr,
      get_lines_strict_single s.list_lines (s.cursor_row - 2) hlt]

/-- Witness for C8 (amended): with list `["a", "b", "c"]`, cursor-up at
row 1 is a no-op, and cursor-up from row 3 lands on row 2 holding `"b"`. -/
theorem c8_cursor_up_copies_destination_witness :
    (ctrl_jk_callback false ⟨true, true, true, ["x"], ["a", "b", "c"], 1, 0, []⟩ =
      ⟨true, true, true, ["x"], ["a", "b", "c"], 1, 0, []⟩) ∧
    (ctrl_jk_callback false ⟨true, true, true, [""], ["a", "b", "c"], 3, 0, []⟩ =
      ⟨true, true, true, ["b"], ["a", "b", "c"], 2, 0, []⟩) := by
  constructor
  · exact (c8_cursor_up_copies_destination
      ⟨true, true, true, ["x"], ["a", "b", "c"], 1, 0, []⟩).1 (by decide)
  · exact (c8_cursor_up_copies_destination
      ⟨true, true, true, [""], ["a", "b", "c"], 3, 0, []⟩).2 (by decide) (by decide)

/-- C2. For every session state — in particular for every Input surface
content — the Cancel event (`<c-e>`) closes all three windows and leaves
the callback invocation log untouched: the selection callback is never
invoked, and nothing else of the session (input, list, cursor) changes. -/
theorem c2_cancel_closes_all_and_never_calls_back (s : SessionState) :
    (ctrl_e_to_close_the_picker s).title_open = false ∧
    (ctrl_e_to_close_the_picker s).input_open = false ∧
    (ctrl_e_to_close_the_picker s).list_open = false ∧
    (ctrl_e_to_close_the_picker s).callback_log = s.callback_log ∧
    (ctrl_e_to_close_the_picker s).input_lines = s.input_lines ∧
    (ctrl_e_to_close_the_picker s).list_lines = s.list_lines ∧
    (ctrl_e_to_close_the_picker s).cursor_row = s.cursor_row := by
  simp [ctrl_e_to_close_the_picker]

/-- C1. A Commit (`<CR>`) reads the Input surface's first line as
`selected_text`, fires the selection callback exactly once with exactly
that text (one new entry in the invocation log), and — through the
project-command selection callback — updates the backing command list as
follows: non-empty text absent from the list is appended as exactly one
new entry (after the blank placeholder lines are dropped, so its count in
the new list is 1); text already present in the list is not duplicated
(the list is returned unchanged).  `hidx` is the module's invariant that a
stored default index is in range. -/
theorem c1_commit_appends_once_and_fires_once (s : SessionState)
    (ps : ProjectCommandState)
    (hidx : ∀ i ∈ ps.default_cmd_index, i < ps.cmd_list.length) :
    (enter_callback s).callback_log
        = s.callback_log ++ [enter_selected_text s.input_lines] ∧
    (enter_selected_text s.input_lines ≠ "" →
      enter_selected_text s.input_lines ∉ ps.cmd_list →
      (picker_selected_callback ps (enter_selected_text s.input_lines)).cmd_list
          = ps.cmd_list.filter (fun line => !line.isEmpty)
              ++ [enter_selected_text s.input_lines] ∧
      (picker_selected_callback ps (enter_selected_text s.input_lines)).cmd_list.count
          (enter_selected_text s.input_lines) = 1) ∧
    (enter_selected_text s.input_lines ∈ ps.cmd_list →
      (picker_selected_callback ps (enter_selected_text s.input_lines)).cmd_list
          = ps.cmd_list) := by
  refine ⟨rfl, ?_, ?_⟩
  · intro hne hnotmem
    have hempty : (enter_selected_text s.input_lines).isEmpty = false := by
      rw [Bool.eq_false_iff]
      intro hc
      exact hne ((String.isEmpty_iff _).mp hc)
    unfold picker_selected_callback
    rw [if_neg (by rintro ⟨hc, -⟩; rw [hempty] at hc; cases hc)]
    simp only [hempty, Bool.false_eq_true, if_false, if_neg hnotmem]
    constructor
    · rw [List.filter_append]
      simp [hempty]
    · rw [List.filter_append, List.count_append]
      have h0 : (ps.cmd_list.filter (fun line => !line.isEmpty)).count
          (enter_selected_text s.input_lines) = 0 := by
        rw [List.count_eq_zero]
        intro hc
        exact hnotmem (List.mem_of_mem_filter hc)
      simp [h0, hempty, List.count_singleton]
  · intro hmem
    unfold picker_selected_callback
    rcases eq_or_ne (enter_selected_text s.input_lines) "" with he | hne
    · -- empty text already present as a blank placeholder: the callback
      -- falls back to the default (or first) list entry, which is already
      -- in the list, so nothing is appended
      have hnonnil : ps.cmd_list ≠ [] := by
        intro hc
        rw [he, hc] at hmem
        cases hmem
      rw [if_neg (by
        rintro ⟨-, hlen⟩
        exact hnonnil (List.length_eq_zero.mp hlen))]
      have hemp : (enter_selected_text s.input_lines).isEmpty = true := by
        rw [he]; rfl
      simp only [hemp, if_true]
      rcases hd : ps.default_cmd_index with _ | i
      · have h0 : 0 < ps.cmd_list.length := List.length_pos.mpr hnonnil
        have hm : (match (none : Option ℕ) with
            | some cmd_index => ps.cmd_list.getD cmd_index ""
            | none => ps.cmd_list.getD 0 "") = ps.cmd_list.getD 0 "" := rfl
        rw [hm, List.getD_eq_getElem ps.cmd_list "" h0,
          if_pos (ps.cmd_list.getElem_mem h0)]
      · have hi : i < ps.cmd_list.length := hidx i (by rw [hd]; rfl)
        have hm : (match (some i : Option ℕ) with
            | some cmd_index => ps.cmd_list.getD cmd_index ""
            | none => ps.cmd_list.getD 0 "") = ps.cmd_list.getD i "" := rfl
        rw [hm, List.getD_eq_getElem ps.cmd_list "" hi,
          if_pos (ps.cmd_list.getElem_mem hi)]
    · have hempty : (enter_selected_text s.input_lines).isEmpty = false := by
        rw [Bool.eq_false_iff]
        intro hc
        exact hne ((String.isEmpty_iff _).mp hc)
      rw [if_neg (by rintro ⟨hc, -⟩; rw [hempty] at hc; cases hc)]
      simp only [hempty, Bool.false_eq_true, if_false, if_pos hmem]

/-- Witness for C1 : committing the fresh text `"x"` over the backing list
`["a.sh", ""]` (one real entry plus one blank placeholder) logs exactly one
callback invocation with `"x"` and yields the backing list `["a.sh", "x"]`;
committing `"a.sh"`, which is already present, leaves the list unchanged. -/
theorem c1_commit_appends_once_and_fires_once_witness :
    ((enter_callback ⟨true, true, true, ["x"], ["a.sh", ""], 1, 0, []⟩).callback_log
        = [] ++ ["x"] ∧
      (picker_selected_callback ⟨["a.sh", ""], none, []⟩ "x").cmd_list
        = ["a.sh", "x"] ∧
      (picker_selected_callback ⟨["a.sh", ""], none, []⟩ "x").cmd_list.count "x" = 1) ∧
    (picker_selected_callback ⟨["a.sh", ""], none, []⟩ "a.sh").cmd_list
        = ["a.sh", ""] := by
  have h := c1_commit_appends_once_and_fires_once
    ⟨true, true, true, ["x"], ["a.sh", ""], 1, 0, []⟩
    ⟨["a.sh", ""], none, []⟩ (by simp)
  have htxt : enter_selected_text ["x"] = "x" := by decide
  refine ⟨⟨?_, ?_, ?_⟩, ?_⟩
  · simpa [htxt] using h.1
  · simpa [htxt] using (h.2.1 (by decide) (by decide)).1
  · simpa [htxt] using (h.2.1 (by decide) (by decide)).2
  · exact (c1_commit_appends_once_and_fires_once
      ⟨true, true, true, ["a.sh"], ["a.sh", ""], 1, 0, []⟩
      ⟨["a.sh", ""], none, []⟩ (by simp)).2.2 (by decide)

/-- C3 counterexample. The claim says a Surface-allocation failure
during `open()` makes it return an `AllocationFailed` error *and* destroy
every already-created Surface first.  Both halves fail on the code.  With
a host whose second `create_buf` fails, `open()` propagates the error
while the already-created title buffer is left alive (nothing is ever
destroyed on any path — there is no rollback code).  With a host whose
three `open_win` calls all fail, `open()` does not abort at all: it
returns `Ok` with all three handles `-1`. -/
theorem c3_counterexample :
    ((create_editable_picker_with_options ⟨[true, false], [], []⟩ ⟨20, 10⟩
        ⟨"T", ⟨WindowBorder.rounded, none, none, true, true⟩, ["a"]⟩).result = none ∧
      (create_editable_picker_with_options ⟨[true, false], [], []⟩ ⟨20, 10⟩
        ⟨"T", ⟨WindowBorder.rounded, none, none, true, true⟩, ["a"]⟩).created_bufs = 1 ∧
      (create_editable_picker_with_options ⟨[true, false], [], []⟩ ⟨20, 10⟩
        ⟨"T", ⟨WindowBorder.rounded, none, none, true, true⟩, ["a"]⟩).destroyed_surfaces
        = 0) ∧
    (create_editable_picker_with_options ⟨[true, true, true], [false, false, false], []⟩
        ⟨20, 10⟩ ⟨"T", ⟨WindowBorder.rounded, none, none, true, true⟩, ["a"]⟩).result
      = some ⟨-1, -1, -1⟩ := by
  refine ⟨⟨rfl, rfl, rfl⟩, rfl⟩

/-- C3 amended. A `create_buf` failure during `open()` propagates the
host's error to the caller immediately (later surfaces are not created),
but nothing already created is destroyed — there is no rollback.  When all
three buffers allocate, `open()` always returns `Ok`, regardless of
whether the windows could be opened (window failures never abort). -/
theorem c3_buffer_failure_propagates_without_rollback (host : HostOracle)
    (screen : ScreenSize) (opts : EditablePickerOptions) :
    (host.buf_ok.getD 0 false = false →
      (create_editable_picker_with_options host screen opts).result = none ∧
      (create_editable_picker_with_options host screen opts).created_bufs = 0 ∧
      (create_editable_picker_with_options host screen opts).destroyed_surfaces = 0) ∧
    (host.buf_ok.getD 0 false = true → host.buf_ok.getD 1 false = false →
      (create_editable_picker_with_options host screen opts).result = none ∧
      (create_editable_picker_with_options host screen opts).created_bufs = 1 ∧
      (create_editable_picker_with_options host screen opts).destroyed_surfaces = 0) ∧
    (host.buf_ok.getD 0 false = true → host.buf_ok.getD 1 false = true →
      host.buf_ok.getD 2 false = false →
      (create_editable_picker_with_options host screen opts).result = none ∧
      (create_editable_picker_with_options host screen opts).created_bufs = 2 ∧
      (create_editable_picker_with_options host screen opts).destroyed_surfaces = 0) ∧
    (host.buf_ok.getD 0 false = true → host.buf_ok.getD 1 false = true →
      host.buf_ok.getD 2 false = true →
      (create_editable_picker_with_options host screen opts).result.isSome = true ∧
      (create_editable_picker_with_options host screen opts).destroyed_surfaces = 0) := by
  refine ⟨?_, ?_, ?_, ?_⟩
  · intro h0
    unfold create_editable_picker_with_options
    rw [if_pos h0]
    exact ⟨rfl, rfl, rfl⟩
  · intro h0 h1
    unfold create_editable_picker_with_options
    rw [if_neg (by rw [h0]; decide), if_pos h1]
    exact ⟨rfl, rfl, rfl⟩
  · intro h0 h1 h2
    unfold create_editable_picker_with_options
    rw [if_neg (by rw [h0]; decide), if_neg (by rw [h1]; decide), if_pos h2]
    exact ⟨rfl, rfl, rfl⟩
  · intro h0 h1 h2
    unfold create_editable_picker_with_options
    rw [if_neg (by rw [h0]; decide), if_neg (by rw [h1]; decide), if_neg (by rw [h2]; decide)]
    exact ⟨rfl, rfl⟩

/-- Witness for C3 (amended), at a host whose second `create_buf` fails
and at a host where everything allocates. -/
theorem c3_buffer_failure_propagates_without_rollback_witness :
    ((create_editable_picker_with_options ⟨[true, false, true], [], []⟩ ⟨20, 10⟩
        ⟨"T", ⟨WindowBorder.rounded, none, none, false, false⟩, []⟩).result = none ∧
      (create_editable_picker_with_options ⟨[true, false, true], [], []⟩ ⟨20, 10⟩
        ⟨"T", ⟨WindowBorder.rounded, none, none, false, false⟩, []⟩).created_bufs = 1 ∧
      (create_editable_picker_with_options ⟨[true, false, true], [], []⟩ ⟨20, 10⟩
        ⟨"T", ⟨WindowBorder.rounded, none, none, false, false⟩, []⟩).destroyed_surfaces
        = 0) ∧
    (create_editable_picker_with_options ⟨[true, true, true], [true, true, true], [4, 5, 6]⟩
        ⟨20, 10⟩
        ⟨"T", ⟨WindowBorder.rounded, none, none, false, false⟩, []⟩).result.isSome
      = true := by
  constructor
  · exact (c3_buffer_failure_propagates_without_rollback ⟨[true, false, true], [], []⟩
      ⟨20, 10⟩ ⟨"T", ⟨WindowBorder.rounded, none, none, false, false⟩, []⟩).2.1
      (by decide) (by decide)
  · exact ((c3_buffer_failure_propagates_without_rollback
      ⟨[true, true, true], [true, true, true], [4, 5, 6]⟩
      ⟨20, 10⟩ ⟨"T", ⟨WindowBorder.rounded, none, none, false, false⟩, []⟩).2.2.2
      (by decide) (by decide) (by decide)).1

/-- C4 counterexample. The claim says a width/height ratio outside
`(0, 1]` is rejected at `open()` time with an `InvalidLayout` error before
any Surface is created.  The code performs no ratio validation of any
kind: with both ratios set to `2` (outside `(0, 1]`) and a fully
functional host, `open()` creates all three buffers, returns successfully,
and uses the out-of-range ratio as-is — on a 20×10 screen the computed
size is `⌊20·2⌋ × ⌊10·2⌋ = 40 × 20`, twice the screen. -/
theorem c4_counterexample :
    (create_editable_picker_with_options ⟨[true, true, true], [true, true, true], [4, 5, 6]⟩
        ⟨20, 10⟩
        ⟨"T", ⟨WindowBorder.rounded, some 2, some 2, false, false⟩, ["a"]⟩).result.isSome
      = true ∧
    (create_editable_picker_with_options ⟨[true, true, true], [true, true, true], [4, 5, 6]⟩
        ⟨20, 10⟩
        ⟨"T", ⟨WindowBorder.rounded, some 2, some 2, false, false⟩, ["a"]⟩).created_bufs
      = 3 ∧
    (create_editable_picker_with_options ⟨[true, true, true], [true, true, true], [4, 5, 6]⟩
        ⟨20, 10⟩
        ⟨"T", ⟨WindowBorder.rounded, some 2, some 2, false, false⟩, ["a"]⟩).width = 40 ∧
    (create_editable_picker_with_options ⟨[true, true, true], [true, true, true], [4, 5, 6]⟩
        ⟨20, 10⟩
        ⟨"T", ⟨WindowBorder.rounded, some 2, some 2, false, false⟩, ["a"]⟩).height
      = 20 := by
  refine ⟨rfl, rfl, ?_, ?_⟩
  · show editable_width ⟨20, 10⟩
      ⟨"T", ⟨WindowBorder.rounded, some 2, some 2, false, false⟩, ["a"]⟩ = 40
    norm_num [editable_width, base_width]
  · show editable_height ⟨20, 10⟩
      ⟨"T", ⟨WindowBorder.rounded, some 2, some 2, false, false⟩, ["a"]⟩ = 20
    norm_num [editable_height, base_height]

/-- C4 amended. `open()` never validates the layout ratios: whenever
the three buffers allocate it returns `Ok` for every configuration, and a
supplied ratio `r` — inside `(0, 1]` or not — is used as-is in the sizing
computation, `width = ⌊screen.width · r⌋` (resp. height). -/
theorem c4_no_ratio_validation (host : HostOracle) (screen : ScreenSize)
    (opts : EditablePickerOptions)
    (hb0 : host.buf_ok.getD 0 false = true)
    (hb1 : host.buf_ok.getD 1 false = true)
    (hb2 : host.buf_ok.getD 2 false = true) :
    (create_editable_picker_with_options host screen opts).result.isSome = true ∧
    (∀ r : ℚ, opts.window_opts.window_width_ratio = some r →
      editable_width screen opts = (⌊(screen.width : ℚ) * r⌋ : ℤ)) ∧
    (∀ r : ℚ, opts.window_opts.window_height_ratio = some r →
      editable_height screen opts = (⌊(screen.height : ℚ) * r⌋ : ℤ)) := by
  refine ⟨?_, ?_, ?_⟩
  · unfold create_editable_picker_with_options
    rw [if_neg (by rw [hb0]; decide), if_neg (by rw [hb1]; decide),
      if_neg (by rw [hb2]; decide)]
    rfl
  · intro r hr
    rw [editable_width, if_neg (by simp [hr])]
    simp [base_width, hr]
  · intro r hr
    rw [editable_height, if_neg (by simp [hr])]
    simp [base_height, hr]

/-- Witness for C4 (amended), at the counterexample's configuration with
ratio `2`: `open()` succeeds and the computed width is `⌊20·2⌋ = 40`. -/
theorem c4_no_ratio_validation_witness :
    (create_editable_picker_with_options ⟨[true, true, true], [true, true, true], [4, 5, 6]⟩
        ⟨20, 10⟩
        ⟨"T", ⟨WindowBorder.rounded, some 2, some 2, false, false⟩, ["a"]⟩).result.isSome
      = true ∧
    editable_width ⟨20, 10⟩
        ⟨"T", ⟨WindowBorder.rounded, some 2, some 2, false, false⟩, ["a"]⟩
      = (⌊(20 : ℚ) * 2⌋ : ℤ) := by
  have h := c4_no_ratio_validation ⟨[true, true, true], [true, true, true], [4, 5, 6]⟩
    ⟨20, 10⟩ ⟨"T", ⟨WindowBorder.rounded, some 2, some 2, false, false⟩, ["a"]⟩
    (by decide) (by decide) (by decide)
  exact ⟨h.1, h.2.1 2 rfl⟩

/-- C9. When all three buffers allocate but any of the three windows
fails to open, its handle stays `-1`; `set_input_buffer_keybindings` then
returns early and installs no keybindings at all (so no commit, cancel or
cursor-navigation event is ever handled for that session), and
`create_editable_picker_with_options` nonetheless returns `Ok` carrying
the `-1` handles. -/
theorem c9_failed_window_skips_keybindings (host : HostOracle) (screen : ScreenSize)
    (opts : EditablePickerOptions)
    (hb0 : host.buf_ok.getD 0 false = true)
    (hb1 : host.buf_ok.getD 1 false = true)
    (hb2 : host.buf_ok.getD 2 false = true)
    (hw : host.win_ok.getD 0 false = false ∨ host.win_ok.getD 1 false = false ∨
      host.win_ok.getD 2 false = false) :
    ∃ r, (create_editable_picker_with_options host screen opts).result = some r ∧
      (create_editable_picker_with_options host screen opts).bindings = [] ∧
      (host.win_ok.getD 0 false = false → r.title_window_handle = -1) ∧
      (host.win_ok.getD 1 false = false → r.input_window_handle = -1) ∧
      (host.win_ok.getD 2 false = false → r.list_window_handle = -1) := by
  unfold create_editable_picker_with_options
  rw [if_neg (by rw [hb0]; decide), if_neg (by rw [hb1]; decide),
    if_neg (by rw [hb2]; decide)]
  refine ⟨_, rfl, ?_, ?_, ?_, ?_⟩
  · rcases hw with h | h | h <;> rw [h] <;>
      simp [set_input_buffer_keybindings]
  · intro h
    rw [h]
    simp
  · intro h
    rw [h]
    simp
  · intro h
    rw [h]
    simp

/-- Witness for C9: with the first `open_win` failing, `open()` returns
`Ok` with title handle `-1` while the other two windows keep their host
handles, and no keybindings are installed. -/
theorem c9_failed_window_skips_keybindings_witness :
    ∃ r, (create_editable_picker_with_options
        ⟨[true, true, true], [false, true, true], [10, 11, 12]⟩ ⟨20, 10⟩
        ⟨"T", ⟨WindowBorder.rounded, none, none, false, false⟩, ["a"]⟩).result = some r ∧
      (create_editable_picker_with_options
        ⟨[true, true, true], [false, true, true], [10, 11, 12]⟩ ⟨20, 10⟩
        ⟨"T", ⟨WindowBorder.rounded, none, none, false, false⟩, ["a"]⟩).bindings = [] ∧
      r.title_window_handle = -1 := by
  obtain ⟨r, hr, hb, h0, -, -⟩ := c9_failed_window_skips_keybindings
    ⟨[true, true, true], [false, true, true], [10, 11, 12]⟩ ⟨20, 10⟩
    ⟨"T", ⟨WindowBorder.rounded, none, none, false, false⟩, ["a"]⟩
    (by decide) (by decide) (by decide) (Or.inl (by decide))
  exact ⟨r, hr, hb, h0 (by decide)⟩

/-- The running-max fold never drops below its initial value. -/
lemma le_foldl_length_max (xs : List String) (a : ℕ) :
    a ≤ xs.foldl (fun m line => max m line.length) a := by
  induction xs generalizing a with
  | nil => simp
  | cons x xs ih => exact le_trans (le_max_left _ _) (ih _)

/-- One auto-width loop iteration, with its running-max `if` written as
`max`. -/
lemma editable_auto_width_step_eq (acc : Nat × ℚ) (x : String) :
    editable_auto_width_step acc x =
      (max acc.1 x.length,
       if 0 < max acc.1 x.length then ((max acc.1 x.length : ℕ) : ℚ) + 4 else acc.2) := by
  unfold editable_auto_width_step
  have h : (if x.length > acc.1 then x.length else acc.1) = max acc.1 x.length := by
    split <;> omega
  rw [h]

/-- Closed form of the editable picker's auto-width loop on a *non-empty*
item list: the final running max is the fold of `max` over the line
lengths, and the width is overwritten to `max + 4` exactly when that max
is positive (otherwise the initial width survives). -/
lemma editable_auto_width_loop (xs : List String) (m : ℕ) (w : ℚ) (h : xs ≠ []) :
    xs.foldl editable_auto_width_step (m, w) =
      (xs.foldl (fun a line => max a line.length) m,
       if 0 < xs.foldl (fun a line => max a line.length) m
       then ((xs.foldl (fun a line => max a line.length) m : ℕ) : ℚ) + 4 else w) := by
  induction xs generalizing m w with
  | nil => cases h rfl
  | cons x xs ih =>
    rw [List.foldl_cons, List.foldl_cons, editable_auto_width_step_eq]
    rcases eq_or_ne xs [] with hx | hx
    · subst hx
      simp only [List.foldl_nil]
    · rw [ih _ _ hx]
      congr 1
      rcases Nat.eq_zero_or_pos
          (xs.foldl (fun a line => max a line.length) (max m x.length)) with h0 | h0
      · have hm : max m x.length = 0 :=
          Nat.le_zero.mp (h0 ▸ le_foldl_length_max xs (max m x.length))
        rw [h0, hm]
        simp
      · simp [h0]

/-- C5 counterexample. The claim says the auto-fit width equals
`max(title.len(), max(item.len())) + 4` for *every* item list, including
the empty one.  But the width overwrite sits *inside* the `for` loop over
the items, so with `title = "ab"` and an empty item list the loop body
never runs: on a 20×10 screen the width stays at the ratio default
`⌊20·0.5⌋ = 10` instead of the claimed `max(2, –) + 4 = 6`. -/
theorem c5_counterexample :
    editable_width ⟨20, 10⟩
        ⟨"ab", ⟨WindowBorder.rounded, none, none, true, true⟩, []⟩ = 10 ∧
    ¬ editable_width ⟨20, 10⟩
        ⟨"ab", ⟨WindowBorder.rounded, none, none, true, true⟩, []⟩
      = (("ab".length : ℕ) : ℚ) + 4 := by
  have h : editable_width ⟨20, 10⟩
      ⟨"ab", ⟨WindowBorder.rounded, none, none, true, true⟩, []⟩ = 10 := by
    unfold editable_width
    rw [if_pos ⟨rfl, rfl⟩]
    simp only [List.foldl_nil]
    norm_num [base_width]
  refine ⟨h, ?_⟩
  rw [h]
  have hl : ("ab".length : ℕ) = 2 := rfl
  rw [hl]
  norm_num

/-- C5 amended. When `window_width_ratio` is unset, `auto_width` is
set and the item list is *non-empty*, the computed width is
`max(title.len(), max over items of item.len()) + 4` (written as a `max`
fold) provided that max is positive, and stays at the ratio-default width
when the max is 0 (empty title and all-empty items); when the item list is
empty the auto-fit loop never runs and the width always stays at the
ratio-default `⌊screen.width · 0.5⌋`. -/
theorem c5_auto_width_requires_nonempty_list (screen : ScreenSize)
    (opts : EditablePickerOptions)
    (hr : opts.window_opts.window_width_ratio = none)
    (ha : opts.window_opts.auto_width = true) :
    (opts.list ≠ [] →
      editable_width screen opts =
        (if 0 < opts.list.foldl (fun a line => max a line.length) opts.title.length
         then ((opts.list.foldl (fun a line => max a line.length) opts.title.length : ℕ)
            : ℚ) + 4
         else base_width screen none)) ∧
    (opts.list = [] → editable_width screen opts = base_width screen none) := by
  constructor
  · intro hne
    unfold editable_width
    rw [if_pos ⟨ha, hr⟩, editable_auto_width_loop _ _ _ hne, hr]
  · intro hnil
    unfold editable_width
    rw [if_pos ⟨ha, hr⟩, hnil]
    simp only [List.foldl_nil]
    rw [hr]

/-- Witness for C5 (amended): with title `"ab"` and items
`["a.sh", "b.sh"]` the auto-fit width is `max(2, 4, 4) + 4 = 8`; with the
same title and no items it stays at the ratio default `⌊20·0.5⌋ = 10`. -/
theorem c5_auto_width_requires_nonempty_list_witness :
    editable_width ⟨20, 10⟩
        ⟨"ab", ⟨WindowBorder.rounded, none, none, true, true⟩, ["a.sh", "b.sh"]⟩ = 8 ∧
    editable_width ⟨20, 10⟩
        ⟨"ab", ⟨WindowBorder.rounded, none, none, true, true⟩, []⟩
      = base_width ⟨20, 10⟩ none := by
  constructor
  · have h := (c5_auto_width_requires_nonempty_list ⟨20, 10⟩
      ⟨"ab", ⟨WindowBorder.rounded, none, none, true, true⟩, ["a.sh", "b.sh"]⟩
      rfl rfl).1 (by decide)
    have l1 : ("ab".length : ℕ) = 2 := rfl
    have l2 : ("a.sh".length : ℕ) = 4 := rfl
    have l3 : ("b.sh".length : ℕ) = 4 := rfl
    rw [h]
    norm_num [l1, l2, l3, show (2 : ℕ) ⊔ 4 = 4 from rfl, show (4 : ℕ) ⊔ 4 = 4 from rfl]
  · exact (c5_auto_width_requires_nonempty_list ⟨20, 10⟩
      ⟨"ab", ⟨WindowBorder.rounded, none, none, true, true⟩, []⟩ rfl rfl).2 rfl

/-- C6 counterexample. The claim says bordered surfaces add `+2` to
both the effective width and the effective height used for centering, in
both picker variants.  The editable (three-surface) picker adds `+4` to
the height (`height + 4.0f32 // 4 borders!!!` in the source), not `+2`:
with a rounded border and computed height 10 the effective height is 14. -/
theorem c6_counterexample :
    editable_cal_height WindowBorder.rounded 10 = 14 ∧
    ¬ editable_cal_height WindowBorder.rounded 10 = 10 + 2 := by
  have h : editable_cal_height WindowBorder.rounded 10 = 14 := by
    unfold editable_cal_height
    rw [if_neg (by decide)]
    norm_num
  refine ⟨h, ?_⟩
  rw [h]
  norm_num

/-- C6 amended. Borderless surfaces use the computed width/height
unchanged for centering.  Bordered surfaces add `+2` to the width in both
variants and to the height in the single-surface picker, but the editable
three-surface picker adds `+4` to the height. -/
theorem c6_border_inflation (b : WindowBorder) (w h : ℚ) :
    (popup_cal_width WindowBorder.none w = w ∧
      popup_cal_height WindowBorder.none h = h ∧
      editable_cal_width WindowBorder.none w = w ∧
      editable_cal_height WindowBorder.none h = h) ∧
    (b ≠ WindowBorder.none →
      popup_cal_width b w = w + 2 ∧
      popup_cal_height b h = h + 2 ∧
      editable_cal_width b w = w + 2 ∧
      editable_cal_height b h = h + 4) := by
  constructor
  · simp [popup_cal_width, popup_cal_height, editable_cal_width, editable_cal_height]
  · intro hb
    simp [popup_cal_width, popup_cal_height, editable_cal_width, editable_cal_height, hb]

/-- Witness for C6 (amended) at a rounded border with width 5, height 10. -/
theorem c6_border_inflation_witness :
    popup_cal_width WindowBorder.rounded 5 = 5 + 2 ∧
    popup_cal_height WindowBorder.rounded 10 = 10 + 2 ∧
    editable_cal_width WindowBorder.rounded 5 = 5 + 2 ∧
    editable_cal_height WindowBorder.rounded 10 = 10 + 4 :=
  (c6_border_inflation WindowBorder.rounded 5 10).2 (by decide)

/-- With the ratio unset, the `0.5` default makes the base width exactly
`screen.width / 2` (integer division). -/
lemma base_width_default (screen : ScreenSize) :
    base_width screen none = ((screen.width / 2 : ℕ) : ℚ) := by
  unfold base_width
  rw [Option.getD_none, mul_one_div]
  have h0 : (0 : ℚ) ≤ (screen.width : ℚ) / 2 := by positivity
  rw [← Int.toNat_of_nonneg (Int.floor_nonneg.mpr h0), Int.floor_toNat,
    Nat.floor_div_ofNat, Nat.floor_natCast]
  norm_cast

/-- With the ratio unset, the `0.5` default makes the base height exactly
`screen.height / 2` (integer division). -/
lemma base_height_default (screen : ScreenSize) :
    base_height screen none = ((screen.height / 2 : ℕ) : ℚ) := by
  unfold base_height
  rw [Option.getD_none, mul_one_div]
  have h0 : (0 : ℚ) ≤ (screen.height : ℚ) / 2 := by positivity
  rw [← Int.toNat_of_nonneg (Int.floor_nonneg.mpr h0), Int.floor_toNat,
    Nat.floor_div_ofNat, Nat.floor_natCast]
  norm_cast

/-- C10. Whenever a ratio option is unset, the sizing computations of
both picker variants fall back to the default ratio `0.5`:
`width = ⌊screen.width · 0.5⌋ = screen.width / 2` (and likewise for the
height) in every case where the auto-fit branch does not overwrite the
value — auto-fit disabled, or (for the editable width) an empty item list,
or (for the single-surface height) an empty buffer. -/
theorem c10_unset_ratio_defaults_to_half (screen : ScreenSize)
    (opts : EditablePickerOptions) (o : PopupWindowOptions)
    (buffer_lines : List String) :
    (opts.window_opts.window_width_ratio = none →
      opts.window_opts.auto_width = false →
      editable_width screen opts = ((screen.width / 2 : ℕ) : ℚ)) ∧
    (opts.window_opts.window_width_ratio = none → opts.list = [] →
      editable_width screen opts = ((screen.width / 2 : ℕ) : ℚ)) ∧
    (opts.window_opts.window_height_ratio = none →
      opts.window_opts.auto_height = false →
      editable_height screen opts = ((screen.height / 2 : ℕ) : ℚ)) ∧
    (o.window_width_ratio = none → o.auto_width = false →
      popup_window_width screen o buffer_lines = ((screen.width / 2 : ℕ) : ℚ)) ∧
    (o.window_height_ratio = none → o.auto_height = false →
      popup_window_height screen o buffer_lines = ((screen.height / 2 : ℕ) : ℚ)) ∧
    (o.window_height_ratio = none → buffer_lines = [] →
      popup_window_height screen o buffer_lines = ((screen.height / 2 : ℕ) : ℚ)) := by
  refine ⟨?_, ?_, ?_, ?_, ?_, ?_⟩
  · intro hr ha
    unfold editable_width
    rw [if_neg (by rintro ⟨h1, -⟩; rw [ha] at h1; cases h1), hr, base_width_default]
  · intro hr hnil
    unfold editable_width
    by_cases hc : opts.window_opts.auto_width = true ∧
        opts.window_opts.window_width_ratio = none
    · rw [if_pos hc, hnil]
      simp only [List.foldl_nil]
      rw [hr, base_width_default]
    · rw [if_neg hc, hr, base_width_default]
  · intro hr ha
    unfold editable_height
    rw [if_neg (by rintro ⟨h1, -⟩; rw [ha] at h1; cases h1), hr, base_height_default]
  · intro hr ha
    unfold popup_window_width
    rw [if_neg (by rintro ⟨h1, -⟩; rw [ha] at h1; cases h1), hr, base_width_default]
  · intro hr ha
    unfold popup_window_height
    rw [if_neg (by rintro ⟨h1, -⟩; rw [ha] at h1; cases h1), hr, base_height_default]
  · intro hr hnil
    unfold popup_window_height
    by_cases hc : o.auto_height = true ∧ o.window_height_ratio = none
    · rw [if_pos hc, hnil]
      simp only [List.length_nil]
      rw [if_neg (by omega), hr, base_height_default]
    · rw [if_neg hc, hr, base_height_default]

/-- Witness for C10 on a 21×11 screen (odd sizes, so the floor matters):
all defaulted dimensions come out as 10 and 5. -/
theorem c10_unset_ratio_defaults_to_half_witness :
    editable_width ⟨21, 11⟩
        ⟨"T", ⟨WindowBorder.rounded, none, none, false, false⟩, ["a"]⟩ = 10 ∧
    editable_height ⟨21, 11⟩
        ⟨"T", ⟨WindowBorder.rounded, none, none, false, false⟩, ["a"]⟩ = 5 ∧
    popup_window_width ⟨21, 11⟩ ⟨WindowBorder.rounded, none, none, false, false⟩ ["x"]
      = 10 ∧
    popup_window_height ⟨21, 11⟩ ⟨WindowBorder.rounded, none, none, false, false⟩ ["x"]
      = 5 := by
  have h := c10_unset_ratio_defaults_to_half ⟨21, 11⟩
    ⟨"T", ⟨WindowBorder.rounded, none, none, false, false⟩, ["a"]⟩
    ⟨WindowBorder.rounded, none, none, false, false⟩ ["x"]
  refine ⟨?_, ?_, ?_, ?_⟩
  · have := h.1 rfl rfl
    rw [this]
    norm_num
  · have := h.2.2.1 rfl rfl
    rw [this]
    norm_num
  · have := h.2.2.2.1 rfl rfl
    rw [this]
    norm_num
  · have := h.2.2.2.2.1 rfl rfl
    rw [this]
    norm_num

end Picker
